import Mathlib

/-!
Verification of the capability manifest `include/wlr/config.h` and of the
capability layer specified around it (backend/renderer/allocator selection,
session lifecycle, buffer reference counting, event multiplexing).

The manifest itself is embedded literally: each `WLR_HAS_*` macro becomes a
`Nat` constant with the source name and value, and the full list of
`#define`s is recorded as `wlr_config_defines`.  Components that the spec
describes but whose code is not in the repository (CapabilityRegistry's
runtime query, backend/renderer/allocator constructors, the session manager,
buffers, the event multiplexer) are modelled from the spec's words; each such
definition says so in its doc comment.
-/

/-- Value of the macro `WLR_HAS_DRM_BACKEND` in include/wlr/config.h. -/
def WLR_HAS_DRM_BACKEND : Nat := 1

/-- Value of the macro `WLR_HAS_LIBINPUT_BACKEND` in include/wlr/config.h. -/
def WLR_HAS_LIBINPUT_BACKEND : Nat := 1

/-- Value of the macro `WLR_HAS_X11_BACKEND` in include/wlr/config.h. -/
def WLR_HAS_X11_BACKEND : Nat := 1

/-- Value of the macro `WLR_HAS_GLES2_RENDERER` in include/wlr/config.h. -/
def WLR_HAS_GLES2_RENDERER : Nat := 1

/-- Value of the macro `WLR_HAS_VULKAN_RENDERER` in include/wlr/config.h. -/
def WLR_HAS_VULKAN_RENDERER : Nat := 1

/-- Value of the macro `WLR_HAS_GBM_ALLOCATOR` in include/wlr/config.h. -/
def WLR_HAS_GBM_ALLOCATOR : Nat := 1

/-- Value of the macro `WLR_HAS_UDMABUF_ALLOCATOR` in include/wlr/config.h. -/
def WLR_HAS_UDMABUF_ALLOCATOR : Nat := 1

/-- Value of the macro `WLR_HAS_XWAYLAND` in include/wlr/config.h. -/
def WLR_HAS_XWAYLAND : Nat := 1

/-- Value of the macro `WLR_HAS_SESSION` in include/wlr/config.h. -/
def WLR_HAS_SESSION : Nat := 1

/-- Value of the macro `WLR_HAS_COLOR_MANAGEMENT` in include/wlr/config.h. -/
def WLR_HAS_COLOR_MANAGEMENT : Nat := 1

/-- The complete list of object-like macro definitions in
include/wlr/config.h, in file order (the include guard `WLR_CONFIG_H`
carries no value and gates nothing, so it is not part of the capability
surface). -/
def wlr_config_defines : List (String × Nat) :=
  [ ("WLR_HAS_DRM_BACKEND", WLR_HAS_DRM_BACKEND)
  , ("WLR_HAS_LIBINPUT_BACKEND", WLR_HAS_LIBINPUT_BACKEND)
  , ("WLR_HAS_X11_BACKEND", WLR_HAS_X11_BACKEND)
  , ("WLR_HAS_GLES2_RENDERER", WLR_HAS_GLES2_RENDERER)
  , ("WLR_HAS_VULKAN_RENDERER", WLR_HAS_VULKAN_RENDERER)
  , ("WLR_HAS_GBM_ALLOCATOR", WLR_HAS_GBM_ALLOCATOR)
  , ("WLR_HAS_UDMABUF_ALLOCATOR", WLR_HAS_UDMABUF_ALLOCATOR)
  , ("WLR_HAS_XWAYLAND", WLR_HAS_XWAYLAND)
  , ("WLR_HAS_SESSION", WLR_HAS_SESSION)
  , ("WLR_HAS_COLOR_MANAGEMENT", WLR_HAS_COLOR_MANAGEMENT) ]

/-- The enumerated capability flags of the spec's data model, in the
manifest's order. -/
inductive CapabilityFlag where
  | drmBackend
  | libinputBackend
  | x11Backend
  | gles2Renderer
  | vulkanRenderer
  | gbmAllocator
  | udmabufAllocator
  | xwayland
  | session
  | colorManagement
  deriving DecidableEq, Repr

/-- All ten capability flags, in the manifest's order. -/
def CapabilityFlag.all : List CapabilityFlag :=
  [ .drmBackend, .libinputBackend, .x11Backend, .gles2Renderer,
    .vulkanRenderer, .gbmAllocator, .udmabufAllocator, .xwayland,
    .session, .colorManagement ]

/-- The spec's tag for each capability flag. -/
def CapabilityFlag.tag : CapabilityFlag → String
  | .drmBackend => "drm-backend"
  | .libinputBackend => "libinput-backend"
  | .x11Backend => "x11-backend"
  | .gles2Renderer => "gles2-renderer"
  | .vulkanRenderer => "vulkan-renderer"
  | .gbmAllocator => "gbm-allocator"
  | .udmabufAllocator => "udmabuf-allocator"
  | .xwayland => "xwayland"
  | .session => "session"
  | .colorManagement => "color-management"

/-- The manifest macro corresponding to each capability flag. -/
def CapabilityFlag.macroName : CapabilityFlag → String
  | .drmBackend => "WLR_HAS_DRM_BACKEND"
  | .libinputBackend => "WLR_HAS_LIBINPUT_BACKEND"
  | .x11Backend => "WLR_HAS_X11_BACKEND"
  | .gles2Renderer => "WLR_HAS_GLES2_RENDERER"
  | .vulkanRenderer => "WLR_HAS_VULKAN_RENDERER"
  | .gbmAllocator => "WLR_HAS_GBM_ALLOCATOR"
  | .udmabufAllocator => "WLR_HAS_UDMABUF_ALLOCATOR"
  | .xwayland => "WLR_HAS_XWAYLAND"
  | .session => "WLR_HAS_SESSION"
  | .colorManagement => "WLR_HAS_COLOR_MANAGEMENT"

/-- Look up the value a macro name is defined to in the manifest. -/
def lookupDefine (n : String) : Option Nat :=
  (wlr_config_defines.find? (fun p => p.1 == n)).map Prod.snd

/-- The compile-time value of a capability flag: the value of its macro in
the manifest. -/
def compileTimeValue (f : CapabilityFlag) : Option Nat :=
  lookupDefine f.macroName

/-- Modelled from the spec: `CapabilityRegistry.isSupported`.  The registry
code itself is not in the repository; per the spec it is a single immutable
capability descriptor constructed once at process start from the manifest's
macros, so `isSupported` answers whether the flag's macro is defined to a
nonzero value. -/
def isSupported (f : CapabilityFlag) : Bool :=
  match compileTimeValue f with
  | some v => v != 0
  | none => false

/-- Modelled from the spec: a call to `isSupported` at a point of the
process lifetime.  The registry is immutable for the process lifetime, so
the observation point `t` does not enter the computation. -/
def isSupportedAt (_t : Nat) (f : CapabilityFlag) : Bool :=
  isSupported f

/-- The spec's error taxonomy (section 7), restricted to the kinds the
claims mention. -/
inductive CoreError where
  | configurationError
  | deviceError
  | sessionUnavailable
  | invalidTransition
  deriving DecidableEq, Repr

/-- The backend variants of the spec's data model. -/
inductive BackendVariant where
  | drm
  | libinputOnly
  | x11Nested
  deriving DecidableEq, Repr

/-- The renderer variants of the spec's data model. -/
inductive RendererVariant where
  | gles2
  | vulkan
  deriving DecidableEq, Repr

/-- The allocator variants of the spec's data model. -/
inductive AllocatorVariant where
  | gbm
  | udmabuf
  deriving DecidableEq, Repr

/-- The variants a compositor core may ask this layer to create (spec
section 6: Backend, Renderer and Allocator constructors). -/
inductive Variant where
  | backend (v : BackendVariant)
  | renderer (v : RendererVariant)
  | allocator (v : AllocatorVariant)
  deriving DecidableEq, Repr

/-- The capability flag gating each creatable variant (spec section 6
table). -/
def Variant.flag : Variant → CapabilityFlag
  | .backend .drm => .drmBackend
  | .backend .libinputOnly => .libinputBackend
  | .backend .x11Nested => .x11Backend
  | .renderer .gles2 => .gles2Renderer
  | .renderer .vulkan => .vulkanRenderer
  | .allocator .gbm => .gbmAllocator
  | .allocator .udmabuf => .udmabufAllocator

/-- All creatable variants. -/
def Variant.all : List Variant :=
  [ .backend .drm, .backend .libinputOnly, .backend .x11Nested,
    .renderer .gles2, .renderer .vulkan,
    .allocator .gbm, .allocator .udmabuf ]

/-- Modelled from the spec: the compile-time capability check every
`create(variant)` constructor performs (spec sections 4.1 and 6: each
constructor fails with `ConfigurationError` when the corresponding flag is
false).  `cfg` is the capability configuration consulted; the build under
test uses `isSupported`. -/
def createVariant (cfg : CapabilityFlag → Bool) (v : Variant) :
    Except CoreError Variant :=
  if cfg v.flag then .ok v else .error .configurationError

/-- Modelled from the spec: renderer selection (spec section 4.4).  If
Vulkan is compiled in and the target device reports the required feature
set, prefer Vulkan; otherwise fall back to GLES2 when it is compiled in;
if neither is available, fail with `ConfigurationError`.  The result is a
function of the two compiled-in flags and the device's reported feature
bit only. -/
def selectRenderer (vulkanCompiled gles2Compiled deviceHasVulkanFeatures : Bool) :
    Except CoreError RendererVariant :=
  if vulkanCompiled && deviceHasVulkanFeatures then .ok .vulkan
  else if gles2Compiled then .ok .gles2
  else .error .configurationError

/-- The set of open device descriptors, as the list of their numbers. -/
def DescriptorSet : Type := List Nat

/-- Modelled from the spec: the descriptors a backend variant opens when it
starts successfully (spec section 4.3, `Starting` probes devices). -/
def descriptorsOpenedBy : BackendVariant → List Nat
  | .drm => [10, 11]
  | .libinputOnly => [12]
  | .x11Nested => [13]

/-- Modelled from the spec: starting a backend variant (spec sections 4.3
and 8).  The capability flag of the variant is checked first; when it is
false the call fails immediately with `ConfigurationError` and opens no
device descriptor.  Otherwise the variant's descriptors are opened.  The
returned pair is the call's result and the descriptor state after the
call. -/
def startBackend (cfg : CapabilityFlag → Bool) (v : BackendVariant)
    (ds : List Nat) : Except CoreError BackendVariant × List Nat :=
  if cfg (Variant.flag (.backend v)) then
    (.ok v, ds ++ descriptorsOpenedBy v)
  else
    (.error .configurationError, ds)

/-- Modelled from the spec: the observable state of one reference-counted
Buffer (spec sections 3 and 4.5).  `refCount` is the reference count,
`fencePending` whether a fence is attached and not yet signaled, `freed`
whether the backing memory has been released, and `freeEvents` how many
times it has been released. -/
structure BufferState where
  refCount : Int
  fencePending : Bool
  freed : Bool
  freeEvents : Nat
  deriving DecidableEq, Repr

/-- Modelled from the spec: the operations of the buffer property test
(spec section 8): acquire a reference, release a reference, signal the
buffer's fence. -/
inductive BufferOp where
  | acquire
  | release
  | fenceSignal
  deriving DecidableEq, Repr

/-- Modelled from the spec: release the backing memory when and only when
the reference count has reached zero and no fence is pending, and it has
not been released already (spec section 4.5). -/
def BufferState.maybeFree (s : BufferState) : BufferState :=
  if s.refCount = 0 ∧ s.fencePending = false ∧ s.freed = false then
    { s with freed := true, freeEvents := s.freeEvents + 1 }
  else s

/-- Modelled from the spec: one buffer operation.  Acquire increments the
count; release decrements it only when it is positive (the count never goes
negative) and then frees if both conditions hold; a fence signal clears the
pending fence and then frees if both conditions hold. -/
def BufferState.step (s : BufferState) : BufferOp → BufferState
  | .acquire => if s.freed then s else { s with refCount := s.refCount + 1 }
  | .release =>
      if s.freed = true ∨ s.refCount ≤ 0 then s
      else BufferState.maybeFree { s with refCount := s.refCount - 1 }
  | .fenceSignal => BufferState.maybeFree { s with fencePending := false }

/-- A freshly allocated buffer: one reference held by the allocating
caller, a fence attached or not, memory not yet released. -/
def BufferState.init (withFence : Bool) : BufferState :=
  { refCount := 1, fencePending := withFence, freed := false, freeEvents := 0 }

/-- Run an interleaving of buffer operations. -/
def BufferState.run (s : BufferState) (ops : List BufferOp) : BufferState :=
  ops.foldl BufferState.step s

/-- The safety condition of the buffer claim: the reference count is not
negative, the memory was released at most once, release happened exactly
when the state records it as freed, and a freed buffer has count zero and
no pending fence. -/
def BufferState.safe (s : BufferState) : Prop :=
  0 ≤ s.refCount ∧ s.freeEvents ≤ 1 ∧ (s.freed = true ↔ s.freeEvents = 1) ∧
    (s.freed = true → s.refCount = 0 ∧ s.fencePending = false) ∧
    (s.refCount = 0 ∧ s.fencePending = false → s.freed = true)

instance (s : BufferState) : Decidable s.safe := by
  unfold BufferState.safe
  infer_instance

/-- The backend lifecycle states (spec section 4.3). -/
inductive BackendState where
  | uninitialized
  | starting
  | running
  | suspendedB
  | destroying
  | destroyed
  deriving DecidableEq, Repr

/-- The stimuli a backend instance may receive: the lifecycle requests of
section 4.3 plus hot-unplug of one owned entity, which by the spec does not
change the backend's own state. -/
inductive BackendEvent where
  | startReq
  | startDone
  | suspendSignal
  | resumeSignal
  | destroyReq
  | destroyDone
  | hotUnplug
  deriving DecidableEq, Repr

/-- The spec's transition table (section 4.3):
uninitialized to starting to running, running to suspended and back, and
running to destroying to destroyed (terminal). -/
def backendEdge : BackendState → BackendState → Bool
  | .uninitialized, .starting => true
  | .starting, .running => true
  | .running, .suspendedB => true
  | .suspendedB, .running => true
  | .running, .destroying => true
  | .destroying, .destroyed => true
  | _, _ => false

/-- Modelled from the spec: the backend instance's reaction to a stimulus.
Transitions in the table are taken; hot-unplug while running is a no-op on
the backend's own state; every other attempt returns an error and leaves
the state as it was. -/
def BackendState.next (s : BackendState) (e : BackendEvent) :
    Except CoreError BackendState :=
  match s, e with
  | .uninitialized, .startReq => .ok .starting
  | .starting, .startDone => .ok .running
  | .running, .suspendSignal => .ok .suspendedB
  | .suspendedB, .resumeSignal => .ok .running
  | .running, .destroyReq => .ok .destroying
  | .destroying, .destroyDone => .ok .destroyed
  | .running, .hotUnplug => .ok .running
  | _, _ => .error .invalidTransition

/-- The session lifecycle states (spec sections 3 and 4.2). -/
inductive SessionState where
  | inactive
  | acquiring
  | active
  | suspendedS
  | closing
  | closed
  deriving DecidableEq, Repr

/-- Modelled from the spec: the observable state of the one Session of a
process: its lifecycle state, the identities of the devices it owns, the
open device descriptors as pairs of device identity and descriptor number,
and whether the VT/seat claim is held. -/
structure Session where
  state : SessionState
  devices : List Nat
  fds : List (Nat × Nat)
  vtClaimed : Bool
  deriving DecidableEq, Repr

/-- Modelled from the spec: entering the `Closing` state on explicit
shutdown from `Active` or `Suspended` (spec section 4.2). -/
def Session.beginClose (s : Session) : Session :=
  if s.state = .active ∨ s.state = .suspendedS then { s with state := .closing }
  else s

/-- Modelled from the spec: completing shutdown: all descriptors closed and
the VT claim released, reaching the terminal `Closed` state. -/
def Session.finishClose (s : Session) : Session :=
  if s.state = .closing then
    { state := .closed, devices := s.devices, fds := [], vtClaimed := false }
  else s

/-- Modelled from the spec: `close()` — a no-op on an already closed
session, otherwise shutdown through `Closing` to `Closed`. -/
def Session.close (s : Session) : Session :=
  if s.state = .closed then s else s.beginClose.finishClose

/-- Modelled from the spec: the descriptor the session manager obtains when
it re-opens the device with identity `d` on resume.  The identity is
preserved; the descriptor number itself is not specified. -/
def openFdFor (d : Nat) : Nat := d + 100

/-- Modelled from the spec: VT-switch-away — GPU access to the claimed
devices is closed or muted and the session becomes `Suspended`; device
identities are retained. -/
def Session.suspend (s : Session) : Session :=
  if s.state = .active then { s with state := .suspendedS, fds := [] }
  else s

/-- Modelled from the spec: VT-switch-back — descriptors are re-validated:
every device identity that is recoverable is re-opened; one that is not is
treated as hot-unplugged and dropped (spec section 4.2). -/
def Session.resume (recoverable : Nat → Bool) (s : Session) : Session :=
  if s.state = .suspendedS then
    let kept := s.devices.filter recoverable
    { state := .active, devices := kept,
      fds := kept.map (fun d => (d, openFdFor d)), vtClaimed := s.vtClaimed }
  else s

/-- Modelled from the spec: the event multiplexer's observable state — the
accepted-but-undelivered queue and the events already delivered to the
consumer, each event carried as its payload (spec section 4.6: payloads are
not transformed). -/
structure Mux where
  queue : List Nat
  delivered : List Nat
  deriving DecidableEq, Repr

/-- Modelled from the spec: the multiplexer's two actions — accept one
event from a source, or deliver the oldest accepted event to the consumer
(a no-op when nothing is pending). -/
inductive MuxOp where
  | accept (payload : Nat)
  | deliver
  deriving DecidableEq, Repr

/-- Modelled from the spec: one multiplexer action. -/
def Mux.step (m : Mux) : MuxOp → Mux
  | .accept p => { m with queue := m.queue ++ [p] }
  | .deliver =>
      match m.queue with
      | [] => m
      | p :: rest => { queue := rest, delivered := m.delivered ++ [p] }

/-- Run a sequence of multiplexer actions. -/
def Mux.run (m : Mux) (ops : List MuxOp) : Mux :=
  ops.foldl Mux.step m

/-- The multiplexer before any event has arrived. -/
def Mux.initial : Mux := { queue := [], delivered := [] }

/-- The payloads a sequence of actions accepts, in order of acceptance. -/
def acceptedPayloads (ops : List MuxOp) : List Nat :=
  ops.filterMap (fun op =>
    match op with
    | .accept p => some p
    | .deliver => none)

/-- Deliver every pending event: issue one deliver action per queued
event. -/
def Mux.flush (m : Mux) : Mux :=
  m.run (List.replicate m.queue.length .deliver)

/-- Claim C1: the compile-time capability surface is exactly the ten
enumerated flags; `CapabilityFlag.all` lists every flag without repetition,
and mapping each flag to its macro reproduces, bit-exactly and in order,
the full list of macros the manifest defines — one macro per flag, no
further macro and no further flag. -/
theorem capability_surface_exact :
    (∀ f : CapabilityFlag, f ∈ CapabilityFlag.all) ∧
    CapabilityFlag.all.Nodup ∧
    CapabilityFlag.all.length = 10 ∧
    CapabilityFlag.all.map CapabilityFlag.macroName =
      wlr_config_defines.map Prod.fst ∧
    CapabilityFlag.all.map compileTimeValue =
      wlr_config_defines.map (fun p => some p.2) ∧
    CapabilityFlag.all.map CapabilityFlag.tag =
      [ "drm-backend", "libinput-backend", "x11-backend", "gles2-renderer",
        "vulkan-renderer", "gbm-allocator", "udmabuf-allocator", "xwayland",
        "session", "color-management" ] := by
  refine ⟨fun f => ?_, by decide, by decide, by decide, by decide, by decide⟩
  cases f <;> simp [CapabilityFlag.all]

/-- Claim C2: `isSupported` is pure — two calls with the same flag at any
two points of the process lifetime return the same boolean — and that
boolean matches the compile-time configuration: it is true exactly when the
flag's macro is defined to 1 in the manifest. -/
theorem isSupported_pure_matches_manifest :
    ∀ (t₁ t₂ : Nat) (f : CapabilityFlag),
      isSupportedAt t₁ f = isSupportedAt t₂ f ∧
      isSupportedAt t₁ f = isSupported f ∧
      (isSupported f = true ↔ lookupDefine f.macroName = some 1) := by
  intro t₁ t₂ f
  exact ⟨rfl, rfl, by cases f <;> decide⟩

/-- Claim C3: in the configuration compiled in this repository every
capability flag is enabled, so `isSupported` is constantly true and no
`create(variant)` call fails with `ConfigurationError` for a missing
compile-time capability. -/
theorem all_flags_enabled_create_never_config_fails :
    (∀ f : CapabilityFlag, isSupported f = true) ∧
    (∀ v : Variant, createVariant isSupported v = .ok v) := by
  constructor
  · intro f; cases f <;> decide
  · intro v
    rcases v with b | r | a
    · cases b <;> rfl
    · cases r <;> rfl
    · cases a <;> rfl

/-- Claim C4: renderer selection follows the deterministic policy of the
spec: Vulkan when it is compiled in and the device reports the required
features; otherwise GLES2 when it is compiled in; otherwise failure with
`ConfigurationError`.  `selectRenderer` is a function of the two
compiled-in flags and the device feature bit alone, so the result cannot
depend on the iteration order of any collection. -/
theorem selectRenderer_policy :
    ∀ (vk g d : Bool),
      (vk = true → d = true → selectRenderer vk g d = .ok .vulkan) ∧
      ((vk = false ∨ d = false) → g = true →
        selectRenderer vk g d = .ok .gles2) ∧
      ((vk = false ∨ d = false) → g = false →
        selectRenderer vk g d = .error .configurationError) := by
  intro vk g d
  cases vk <;> cases g <;> cases d <;> simp [selectRenderer]

/-- Witness for C4: with Vulkan off and GLES2 on, selection yields GLES2;
with both on and a capable device, selection yields Vulkan. -/
theorem selectRenderer_policy_witness :
    selectRenderer false true false = .ok .gles2 ∧
    selectRenderer true true true = .ok .vulkan :=
  ⟨(selectRenderer_policy false true false).2.1 (Or.inl rfl) rfl,
   (selectRenderer_policy true true true).1 rfl rfl⟩

/-- Claim C5: starting a backend variant whose capability flag is false
fails immediately with `ConfigurationError`, and the descriptor state after
the call is exactly the descriptor state before it: no device descriptor
was opened. -/
theorem startBackend_unsupported_no_descriptor :
    ∀ (cfg : CapabilityFlag → Bool) (v : BackendVariant) (ds : List Nat),
      cfg (Variant.flag (.backend v)) = false →
      startBackend cfg v ds = (.error .configurationError, ds) := by
  intro cfg v ds h
  simp [startBackend, h]

/-- Witness for C5: requesting the X11 backend under a configuration with
x11-backend disabled fails with `ConfigurationError` and leaves the two
pre-existing descriptors untouched. -/
theorem startBackend_unsupported_no_descriptor_witness :
    startBackend (fun f => f != .x11Backend) .x11Nested [3, 4] =
      (.error .configurationError, [3, 4]) :=
  startBackend_unsupported_no_descriptor (fun f => f != .x11Backend)
    .x11Nested [3, 4] (by decide)

/-- One buffer operation preserves the buffer safety condition. -/
theorem buffer_safe_step (s : BufferState) (op : BufferOp) (h : s.safe) :
    (BufferState.step s op).safe := by
  obtain ⟨h0, h1, h2, h3, h4⟩ := h
  cases op <;>
    simp only [BufferState.step, BufferState.maybeFree] <;>
    split_ifs <;>
    simp_all [BufferState.safe] <;>
    omega

/-- Any run of buffer operations from a safe state ends in a safe state. -/
theorem buffer_safe_run (ops : List BufferOp) :
    ∀ s : BufferState, s.safe → (BufferState.run s ops).safe := by
  induction ops with
  | nil => intro s h; exact h
  | cons op rest ih =>
      intro s h
      exact ih (BufferState.step s op) (buffer_safe_step s op h)

/-- A freshly allocated buffer is safe. -/
theorem buffer_init_safe (b : Bool) : (BufferState.init b).safe := by
  cases b <;> decide

/-- Claim C6: over every interleaving of acquire, release and fence-signal
operations on a buffer (allocated with or without a fence), the reference
count never becomes negative, the backing memory is released at most once
and exactly when the state records it as freed, it is released only when
the count is zero and no fence is pending, and whenever the count has
reached zero with no fence pending it has in fact been released — so
release happens exactly once, never before both conditions hold. -/
theorem buffer_refcount_free_exactly_once :
    ∀ (withFence : Bool) (ops : List BufferOp),
      (BufferState.run (BufferState.init withFence) ops).safe :=
  fun withFence ops =>
    buffer_safe_run ops (BufferState.init withFence) (buffer_init_safe withFence)

/-- Claim C7: every successful backend transition is an edge of the spec's
lifecycle table or leaves the state unchanged (a no-op, as hot-unplug
does), and every other stimulus is rejected with an error; the result is
always one of the six machine states by construction of
`BackendState.next`. -/
theorem backend_transitions_follow_table :
    ∀ (s : BackendState) (e : BackendEvent),
      match BackendState.next s e with
      | .ok s' => backendEdge s s' = true ∨ s' = s
      | .error _ => True := by
  intro s e
  cases s <;> cases e <;> simp [BackendState.next, backendEdge]

/-- Claim C8: from `Active` or `Suspended`, close passes through `Closing`
and reaches the terminal `Closed` state with every descriptor closed and
the VT claim released, and a second close on the closed session changes
nothing. -/
theorem session_close_idempotent :
    ∀ s : Session, (s.state = .active ∨ s.state = .suspendedS) →
      s.beginClose.state = .closing ∧
      s.close.state = .closed ∧
      s.close.fds = [] ∧
      s.close.vtClaimed = false ∧
      s.close.close = s.close := by
  intro s h
  rcases h with h | h <;>
    simp [Session.close, Session.beginClose, Session.finishClose, h]

/-- Witness for C8: closing an active session owning two open descriptors
and the VT claim reaches `Closed` with no descriptor and no claim, and a
second close is a no-op. -/
theorem session_close_idempotent_witness :
    (Session.mk .active [1, 2] [(1, 101), (2, 102)] true).beginClose.state
        = .closing ∧
    (Session.mk .active [1, 2] [(1, 101), (2, 102)] true).close.state
        = .closed ∧
    (Session.mk .active [1, 2] [(1, 101), (2, 102)] true).close.fds = [] ∧
    (Session.mk .active [1, 2] [(1, 101), (2, 102)] true).close.vtClaimed
        = false ∧
    (Session.mk .active [1, 2] [(1, 101), (2, 102)] true).close.close
        = (Session.mk .active [1, 2] [(1, 101), (2, 102)] true).close :=
  session_close_idempotent (Session.mk .active [1, 2] [(1, 101), (2, 102)] true)
    (Or.inl rfl)

/-- Claim C9: for an active session whose open descriptors cover exactly
its devices, a suspend followed by a resume in which every original device
identity is recoverable restores an active session whose descriptor set
carries exactly the same device identities as before, with the same number
of open descriptors — no descriptor is leaked and none is lost. -/
theorem session_suspend_resume_roundtrip :
    ∀ (s : Session) (recoverable : Nat → Bool),
      s.state = .active →
      s.fds.map Prod.fst = s.devices →
      (∀ d ∈ s.devices, recoverable d = true) →
      (Session.resume recoverable s.suspend).state = .active ∧
      (Session.resume recoverable s.suspend).fds.map Prod.fst =
        s.fds.map Prod.fst ∧
      (Session.resume recoverable s.suspend).fds.length = s.fds.length ∧
      (Session.resume recoverable s.suspend).devices = s.devices := by
  intro s recoverable hst hfds hrec
  have hfilter : s.devices.filter recoverable = s.devices :=
    List.filter_eq_self.mpr hrec
  have hlen : s.fds.length = s.devices.length := by
    have := congrArg List.length hfds
    simpa using this
  simp [Session.suspend, Session.resume, hst, hfilter, hfds, hlen,
    List.map_map, Function.comp]
  rw [show (Prod.fst ∘ fun d : Nat => (d, openFdFor d)) = id from rfl]
  exact List.map_id s.devices

/-- Witness for C9: an active session with two devices and two open
descriptors survives a suspend/resume round-trip with every identity
recoverable: same identities, same descriptor count. -/
theorem session_suspend_resume_roundtrip_witness :
    (Session.resume (fun _ => true)
        (Session.mk .active [5, 6] [(5, 50), (6, 60)] true).suspend).state
        = .active ∧
    (Session.resume (fun _ => true)
        (Session.mk .active [5, 6] [(5, 50), (6, 60)] true).suspend).fds.map
          Prod.fst
        = (Session.mk .active [5, 6] [(5, 50), (6, 60)] true).fds.map
            Prod.fst ∧
    (Session.resume (fun _ => true)
        (Session.mk .active [5, 6] [(5, 50), (6, 60)] true).suspend).fds.length
        = (Session.mk .active [5, 6] [(5, 50), (6, 60)] true).fds.length ∧
    (Session.resume (fun _ => true)
        (Session.mk .active [5, 6] [(5, 50), (6, 60)] true).suspend).devices
        = (Session.mk .active [5, 6] [(5, 50), (6, 60)] true).devices :=
  session_suspend_resume_roundtrip
    (Session.mk .active [5, 6] [(5, 50), (6, 60)] true) (fun _ => true)
    rfl rfl (fun _ _ => rfl)

/-- Running the multiplexer neither loses, duplicates, reorders nor edits
payloads: delivered events followed by the pending queue always equal the
starting contents followed by everything accepted, in acceptance order. -/
theorem mux_run_partition (ops : List MuxOp) :
    ∀ m : Mux, (m.run ops).delivered ++ (m.run ops).queue =
      m.delivered ++ (m.queue ++ acceptedPayloads ops) := by
  induction ops with
  | nil => intro m; simp [Mux.run, acceptedPayloads]
  | cons op rest ih =>
      intro m
      cases op with
      | accept p =>
          have h := ih { m with queue := m.queue ++ [p] }
          simp only [Mux.run, List.foldl, Mux.step] at h ⊢
          simp [acceptedPayloads] at h ⊢
          simp [h]
      | deliver =>
          cases hq : m.queue with
          | nil =>
              have h := ih m
              simp only [Mux.run, List.foldl, Mux.step, hq] at h ⊢
              simp [acceptedPayloads, hq] at h ⊢
              simpa [hq] using h
          | cons p tl =>
              have h := ih { queue := tl, delivered := m.delivered ++ [p] }
              simp only [Mux.run, List.foldl, Mux.step, hq] at h ⊢
              simp [acceptedPayloads] at h ⊢
              simp [h, hq]

/-- Flushing delivers every pending event in queue order and empties the
queue. -/
theorem mux_flush_drains (q : List Nat) :
    ∀ m : Mux, m.queue = q →
      (m.run (List.replicate q.length .deliver)).delivered =
        m.delivered ++ q ∧
      (m.run (List.replicate q.length .deliver)).queue = [] := by
  induction q with
  | nil => intro m hm; simp [Mux.run, hm]
  | cons p tl ih =>
      intro m hm
      have h := ih { queue := tl, delivered := m.delivered ++ [p] } rfl
      simp only [List.length_cons, List.replicate_succ, Mux.run, List.foldl,
        Mux.step, hm] at h ⊢
      simpa using h

/-- Claim C10: for every sequence of accept and deliver actions starting
from the empty multiplexer, the delivered events followed by the still
pending ones are exactly the accepted payloads in acceptance order (so
nothing is lost, duplicated, reordered or modified), and flushing the
pending queue delivers every accepted event exactly once, in acceptance
order, leaving nothing queued. -/
theorem mux_exactly_once_in_order :
    ∀ ops : List MuxOp,
      (Mux.initial.run ops).delivered ++ (Mux.initial.run ops).queue =
        acceptedPayloads ops ∧
      ((Mux.initial.run ops).flush).delivered = acceptedPayloads ops ∧
      ((Mux.initial.run ops).flush).queue = [] := by
  intro ops
  have hpart := mux_run_partition ops Mux.initial
  simp only [show Mux.initial.delivered = [] from rfl,
    show Mux.initial.queue = [] from rfl, List.nil_append] at hpart
  have hflush := mux_flush_drains (Mux.initial.run ops).queue
    (Mux.initial.run ops) rfl
  refine ⟨hpart, ?_, hflush.2⟩
  rw [Mux.flush, hflush.1, hpart]
